import Mathlib

/-!
Shallow embedding of the backup orchestration core of GithubBackup-docker
(src/app.py, src/backup_service.py, src/models.py), together with theorems
settling the specification claims about it.

Conventions of the embedding:
* All instants are natural numbers counting minutes (the code compares
  `datetime` values; differences of 2 minutes, 2 hours = 120 minutes,
  1 hour = 60 minutes and 1 day = 1440 minutes appear in the source).
  A comparison `t < now - d` of the source is rendered additively as
  `t + d < now`, which agrees with datetime arithmetic for all values.
* Strings that the code manipulates character-by-character (URLs, file
  names) are rendered as `List Char`; Python `str.startswith`,
  `str.endswith`, `str.replace` and `str.strip` are given executable
  models below.
* Database rows are records; a query-then-update loop over rows becomes a
  `List.map` of a per-row update function.
-/

namespace GithubBackup

/-- Lifecycle status of a ledger record (`models.py`, `BackupJob.status`:
pending, running, completed, failed). -/
inductive Status where
  | pending
  | running
  | completed
  | failed
deriving DecidableEq, Repr

/-- A row of the job ledger (`models.py`, class `BackupJob`).  Times are in
minutes; `started_at` and `completed_at` are nullable in the schema. -/
structure BackupJob where
  repository_id : Nat
  status : Status
  created_at : Nat
  started_at : Option Nat
  completed_at : Option Nat
  error_message : Option String
  backup_path : Option String
deriving DecidableEq, Repr

/-- Startup stuck-job cleanup for one row (`app.py` 174-183, inside
`schedule_all_repositories`): every job with status `running` — with no
condition on its age — is marked failed with the restart message and a
completion time. -/
def startup_reap_job (now : Nat) (j : BackupJob) : BackupJob :=
  if j.status = Status.running then
    { j with
      status := Status.failed
      error_message := some "Job was running when application restarted"
      completed_at := some now }
  else j

/-- Startup stuck-job cleanup over the whole ledger (`app.py` 174-183). -/
def startup_reap (now : Nat) (jobs : List BackupJob) : List BackupJob :=
  jobs.map (startup_reap_job now)

/-- The filter of the per-dispatch reaper (`app.py` 777-783): a job of this
repository with status `running` whose `started_at` is before
`now - 2 hours`.  A NULL `started_at` never matches the SQL comparison. -/
def is_stuck (now rid : Nat) (j : BackupJob) : Bool :=
  j.repository_id == rid && j.status == Status.running &&
    (match j.started_at with
     | some t => t + 120 < now
     | none => false)

/-- Per-dispatch stuck-job cleanup for one row (`app.py` 785-791). -/
def dispatch_reap_job (now rid : Nat) (j : BackupJob) : BackupJob :=
  if is_stuck now rid j then
    { j with
      status := Status.failed
      error_message := some "Job stuck for over 2 hours, automatically failed"
      completed_at := some now }
  else j

/-- Per-dispatch stuck-job cleanup over the ledger (`app.py` 776-791,
step 0 of `backup_with_context`), scoped to repository `rid`. -/
def dispatch_reap (now rid : Nat) (jobs : List BackupJob) : List BackupJob :=
  jobs.map (dispatch_reap_job now rid)

/-- Admission check 1 of `backup_with_context` (`app.py` 793-801): is any
job of this repository currently `running`. -/
def hasRunning (jobs : List BackupJob) (rid : Nat) : Bool :=
  jobs.any (fun j => j.repository_id == rid && j.status == Status.running)

/-- Admission check 2 of `backup_with_context` (`app.py` 803-813): a job of
this repository whose `started_at` is after `now - 2 minutes`. -/
def is_recent_start (now rid : Nat) (j : BackupJob) : Bool :=
  j.repository_id == rid &&
    (match j.started_at with
     | some t => now < t + 2
     | none => false)

/-- Result of the guarded scheduled-dispatch wrapper: the ledger after the
admission phase and whether `backup_repository` was invoked. -/
structure BwcResult where
  ledger : List BackupJob
  ran : Bool
deriving DecidableEq, Repr

/-- The scheduled-dispatch wrapper `backup_with_context` (`app.py`
763-844), up to the point where `backup_repository` is or is not invoked:
check the repository is present and active, run the per-repository
stuck-job reaper (which commits ledger changes), then reject if a job of
the repository is `running`, reject if a job of the repository started
within the last 2 minutes, reject if the non-blocking exclusive per-
repository file lock cannot be acquired, and otherwise invoke the
pipeline.  `lockFree` says whether the `fcntl` lock is available. -/
def backup_with_context (repoActive : Bool) (jobs : List BackupJob)
    (rid now : Nat) (lockFree : Bool) : BwcResult :=
  if !repoActive then ⟨jobs, false⟩
  else
    let reaped := dispatch_reap now rid jobs
    if hasRunning reaped rid then ⟨reaped, false⟩
    else if reaped.any (is_recent_start now rid) then ⟨reaped, false⟩
    else if lockFree then ⟨reaped, true⟩
    else ⟨reaped, false⟩

/-- The manual-backup route handler (`app.py` 624-637, `manual_backup`):
after the repository lookup succeeds it calls
`backup_service.backup_repository(repository)` directly — it consults no
ledger state and acquires no lock.  The returned Boolean says whether
`backup_repository` is invoked. -/
def manual_backup (repoFound : Bool) : Bool :=
  repoFound

/-- Membership test of the startup duplicate cleanup (`app.py` 186-187):
jobs created after `now - 1 hour`. -/
def is_recent_created (now : Nat) (j : BackupJob) : Bool :=
  now < j.created_at + 60

/-- Victim selection of the startup duplicate cleanup (`app.py` 189-202):
among the jobs of one repository created within the last hour, the jobs
sorted by creation time other than the first are duplicates.  The model
assumes distinct creation times (the source breaks ties by ledger order):
a job is a victim when some other recent job of the same repository was
created strictly earlier. -/
def is_dup_victim (now : Nat) (jobs : List BackupJob) (j : BackupJob) : Bool :=
  is_recent_created now j &&
    jobs.any (fun k =>
      k.repository_id == j.repository_id && is_recent_created now k &&
        k.created_at < j.created_at)

/-- Startup duplicate cleanup for one row (`app.py` 202-208): a duplicate
whose status is `pending` or `running` is marked failed. -/
def duplicate_cleanup_job (now : Nat) (isDup : Bool) (j : BackupJob) : BackupJob :=
  if isDup && (j.status == Status.pending || j.status == Status.running) then
    { j with
      status := Status.failed
      error_message := some "Duplicate job automatically cleaned up"
      completed_at := some now }
  else j

/-- Startup duplicate cleanup over the ledger (`app.py` 185-212). -/
def duplicate_cleanup (now : Nat) (jobs : List BackupJob) : List BackupJob :=
  jobs.map (fun j => duplicate_cleanup_job now (is_dup_victim now jobs j) j)

/-- Position of a status along the lifecycle order
pending before running before the terminal pair completed/failed. -/
def statusRank : Status → Nat
  | Status.pending => 0
  | Status.running => 1
  | Status.completed => 2
  | Status.failed => 2

/-- A status moves forward along the lifecycle order: it stays put or its
rank strictly increases (so completed and failed, sharing the terminal
rank, can never replace one another). -/
def statusForward (a b : Status) : Prop :=
  a = b ∨ statusRank a < statusRank b

instance (a b : Status) : Decidable (statusForward a b) := by
  unfold statusForward
  infer_instance

/-- A terminal status: completed or failed. -/
def isTerminalStatus (s : Status) : Prop :=
  s = Status.completed ∨ s = Status.failed

instance (s : Status) : Decidable (isTerminalStatus s) := by
  unfold isTerminalStatus
  infer_instance

/-- Custom-interval bounds check of `add_repository` (`app.py` 473-481)
and `edit_repository` (`app.py` 547-555): days 1-365, weeks 1-52,
months 1-12; a unit outside these three is not checked. -/
def valid_custom_interval (custom_unit : String) (custom_interval : Int) : Bool :=
  if custom_unit = "days" then 1 ≤ custom_interval && custom_interval ≤ 365
  else if custom_unit = "weeks" then 1 ≤ custom_interval && custom_interval ≤ 52
  else if custom_unit = "months" then 1 ≤ custom_interval && custom_interval ≤ 12
  else true

/-- Custom-time bounds check of `add_repository` (`app.py` 488-493) and
`edit_repository` (`app.py` 565-570): hour 0-23, minute 0-59. -/
def valid_custom_time (custom_hour custom_minute : Int) : Bool :=
  0 ≤ custom_hour && custom_hour ≤ 23 && 0 ≤ custom_minute && custom_minute ≤ 59

/-- Full custom-schedule validation: a custom schedule is armed only when
both the interval bounds and the time bounds pass. -/
def valid_custom_schedule (custom_unit : String)
    (custom_interval custom_hour custom_minute : Int) : Bool :=
  valid_custom_interval custom_unit custom_interval &&
    valid_custom_time custom_hour custom_minute

/-- Start-date computation of the custom days-interval trigger
(`app.py` 869-875, `schedule_backup_job`, unit `days`, interval greater
than 1): take today at the configured hour and minute, and if that
instant is not after now — including when it is exactly now — advance by
one day.  Instants are minutes; `now - now % 1440` is midnight of the
current day, mirroring `now.replace(hour, minute, second=0,
microsecond=0)`. -/
def compute_days_start (now hour minute : Nat) : Nat :=
  let dayStart := now - now % 1440
  let start0 := dayStart + hour * 60 + minute
  if start0 ≤ now then start0 + 1440 else start0

/-- First fire instant of the custom days-interval trigger: the
`IntervalTrigger(days=interval, start_date=...)` of `app.py` 875 first
fires at its start date; the interval only spaces the later fires. -/
def custom_days_first_fire (now hour minute interval : Nat) : Nat :=
  compute_days_start now hour minute

/-- Day of week of an instant, mirroring Python `datetime.weekday()`
(Monday is 0, Sunday is 6).  The model's epoch day 0 is taken to be a
Monday. -/
def weekdayOf (now : Nat) : Nat :=
  (now / 1440) % 7

/-- Start-date computation of the custom weeks-interval trigger
(`app.py` 881-890, `schedule_backup_job`, unit `weeks`, interval greater
than 1): take today at the configured hour and minute, compute
`days_until_sunday = (6 - weekday) % 7`, replace it by 7 when today is
Sunday and the computed time is not after now, and advance the start by
that many days. -/
def compute_weeks_start (now hour minute : Nat) : Nat :=
  let dayStart := now - now % 1440
  let start0 := dayStart + hour * 60 + minute
  let daysUntilSunday := (6 - weekdayOf now) % 7
  let d := if daysUntilSunday = 0 ∧ start0 ≤ now then 7 else daysUntilSunday
  start0 + d * 1440

/-- First fire instant of the custom weeks-interval trigger: the
`IntervalTrigger(weeks=interval, start_date=...)` of `app.py` 890 first
fires at its start date; the interval only spaces the later fires. -/
def custom_weeks_first_fire (now hour minute interval : Nat) : Nat :=
  compute_weeks_start now hour minute

/-- A wall-clock instant with calendar fields, for the months branch of
the trigger computation whose arithmetic is calendar-based (year, month
1-12, day 1-31, hour, minute; seconds are zeroed by the source's
`replace` call). -/
structure LocalDT where
  year : Nat
  month : Nat
  day : Nat
  hour : Nat
  minute : Nat
deriving DecidableEq, Repr

/-- Strict chronological order on calendar instants: lexicographic on
(year, month, day, hour, minute), which agrees with Python datetime
comparison for valid dates in one time zone. -/
def dtLT (a b : LocalDT) : Prop :=
  a.year < b.year ∨
    (a.year = b.year ∧
      (a.month < b.month ∨
        (a.month = b.month ∧
          (a.day < b.day ∨
            (a.day = b.day ∧
              (a.hour < b.hour ∨
                (a.hour = b.hour ∧ a.minute < b.minute)))))))

/-- Chronological order on calendar instants. -/
def dtLE (a b : LocalDT) : Prop :=
  a = b ∨ dtLT a b

instance (a b : LocalDT) : Decidable (dtLT a b) := by
  unfold dtLT
  infer_instance

instance (a b : LocalDT) : Decidable (dtLE a b) := by
  unfold dtLE
  infer_instance

/-- Start-date computation of the custom months-interval trigger
(`app.py` 896-905, `schedule_backup_job`, unit `months`, interval
greater than 1): take the 1st of the current month at the configured
hour and minute; if that is not after now, move to the 1st of the next
month (rolling over December to January of the next year). -/
def compute_months_start (now : LocalDT) (hour minute : Nat) : LocalDT :=
  let start0 : LocalDT := { now with day := 1, hour := hour, minute := minute }
  if dtLE start0 now then
    if start0.month = 12 then
      { start0 with year := start0.year + 1, month := 1 }
    else
      { start0 with month := start0.month + 1 }
  else start0

/-- First fire anchor of the custom months-interval trigger: the
`IntervalTrigger(weeks=interval*4, start_date=...)` of `app.py` 907
first fires at its start date; the 4-week-approximated interval only
spaces the later fires. -/
def custom_months_first_anchor (now : LocalDT) (hour minute interval : Nat) :
    LocalDT :=
  compute_months_start now hour minute

/-- Python `str.startswith` over character lists. -/
def startsWithCL : List Char → List Char → Bool
  | [], _ => true
  | _ :: _, [] => false
  | p :: ps, c :: cs => p == c && startsWithCL ps cs

/-- Python `str.endswith` over character lists. -/
def endsWithCL (suf s : List Char) : Bool :=
  startsWithCL suf.reverse s.reverse

/-- Python `str.replace` over character lists: replace every
non-overlapping occurrence of `pat`, scanning left to right and skipping
the characters of a matched occurrence.  An empty pattern is returned
untouched (the source only replaces a fixed non-empty URL scheme, so the
empty-pattern corner of Python never arises). -/
def pyReplaceAux (pat repl : List Char) : Nat → List Char → List Char
  | _, [] => []
  | 0, s => s
  | fuel + 1, c :: rest =>
    if !pat.isEmpty && startsWithCL pat (c :: rest) then
      repl ++ pyReplaceAux pat repl fuel ((c :: rest).drop pat.length)
    else
      c :: pyReplaceAux pat repl fuel rest

/-- Python `str.replace`: with fuel equal to the length of the scanned
list, `pyReplaceAux` never exhausts its fuel, because a non-empty match
consumes at least one character and a non-match consumes exactly one. -/
def pyReplace (pat repl s : List Char) : List Char :=
  pyReplaceAux pat repl s.length s

/-- Python `str.strip` over character lists (leading and trailing
whitespace removed). -/
def pyStrip (s : List Char) : List Char :=
  ((s.dropWhile Char.isWhitespace).reverse.dropWhile Char.isWhitespace).reverse

/-- The supported hosting scheme of `_clone_repository`
(`backup_service.py` 146). -/
def githubSchemePfx : List Char := "https://github.com/".toList

/-- The rewritten scheme carrying the credential (`backup_service.py`
148): `https://<token>@github.com/`. -/
def tokenSchemePfx (tok : List Char) : List Char :=
  "https://".toList ++ tok ++ "@github.com/".toList

/-- Clone-URL computation of `_clone_repository` (`backup_service.py`
140-148): start from the stored URL; when the stored token is truthy and
its stripped form is truthy (Python `token and token.strip()`) and the
URL starts with the supported scheme, replace that scheme with the
credential-bearing one; otherwise keep the URL unchanged. -/
def clone_repository_url (url : List Char) (github_token : Option (List Char)) :
    List Char :=
  match github_token with
  | none => url
  | some tok =>
    if tok ≠ [] ∧ pyStrip tok ≠ [] then
      if startsWithCL githubSchemePfx url then
        pyReplace githubSchemePfx (tokenSchemePfx tok) url
      else url
    else url

/-- Outcome of the packaging step `_create_backup` (`backup_service.py`
247-284): the archive path for the three supported formats, or the
`ValueError` message for any other format. -/
def create_backup (backup_name backup_format : String) : Except String String :=
  if backup_format = "folder" then Except.ok backup_name
  else if backup_format = "zip" then Except.ok (backup_name ++ ".zip")
  else if backup_format = "tar.gz" then Except.ok (backup_name ++ ".tar.gz")
  else Except.error ("Unsupported backup format: " ++ backup_format)

/-- Result of one Execution Pipeline invocation: the final ledger record,
the produced archive path when one exists, and the list of packaging
attempts actually made (the format passed to `_create_backup` at each
call). -/
structure PipelineResult where
  job : BackupJob
  archive : Option String
  attempts : List String
deriving DecidableEq, Repr

/-- The Execution Pipeline `backup_repository` (`backup_service.py`
20-138): create a ledger record with status `running` and `started_at`
set; clone (outcome supplied as `cloneResult`); on clone success call
`_create_backup` exactly once; on any raised error set status `failed`,
`error_message` to the failure message and `completed_at`; on success set
status `completed`, the archive path and `completed_at`. -/
def backup_repository (rid : Nat) (backup_format backup_name : String)
    (cloneResult : Except String Unit) (startTime endTime : Nat) :
    PipelineResult :=
  let job0 : BackupJob :=
    { repository_id := rid
      status := Status.running
      created_at := startTime
      started_at := some startTime
      completed_at := none
      error_message := none
      backup_path := none }
  match cloneResult with
  | Except.error e =>
    { job := { job0 with
        status := Status.failed
        error_message := some e
        completed_at := some endTime }
      archive := none
      attempts := [] }
  | Except.ok _ =>
    match create_backup backup_name backup_format with
    | Except.error e =>
      { job := { job0 with
          status := Status.failed
          error_message := some e
          completed_at := some endTime }
        archive := none
        attempts := [backup_format] }
    | Except.ok p =>
      { job := { job0 with
          status := Status.completed
          completed_at := some endTime
          backup_path := some p }
        archive := some p
        attempts := [backup_format] }

/-- A directory entry of a repository backup directory, as seen by the
retention sweep: its name, its modification time and whether it is a
directory. -/
structure FsEntry where
  name : List Char
  mtime : Nat
  isDir : Bool
deriving DecidableEq, Repr

/-- Name marker of in-flight temporary clone directories
(`backup_service.py` 49: `temp_<timestamp>`). -/
def tempMarker : List Char := "temp_".toList

/-- Candidate list of the retention sweep `_cleanup_old_backups`
(`backup_service.py` 288-298): for `folder`, the subdirectories whose
name does not start with `temp_`; for `zip` and `tar.gz`, the entries
matching the extension glob; for any other format the sweep returns
without deleting anything. -/
def retention_candidates (backup_format : String) (entries : List FsEntry) :
    List FsEntry :=
  if backup_format = "folder" then
    entries.filter (fun e => e.isDir && !startsWithCL tempMarker e.name)
  else if backup_format = "zip" then
    entries.filter (fun e => endsWithCL ".zip".toList e.name)
  else if backup_format = "tar.gz" then
    entries.filter (fun e => endsWithCL ".tar.gz".toList e.name)
  else []

/-- Sort key of the retention sweep (`backup_service.py` 301):
newest-first by modification time. -/
def newerRel (a b : FsEntry) : Prop := b.mtime ≤ a.mtime

instance : DecidableRel newerRel := fun a b => Nat.decLe b.mtime a.mtime

instance : IsTotal FsEntry newerRel :=
  ⟨fun a b => Nat.le_total b.mtime a.mtime⟩

instance : IsTrans FsEntry newerRel :=
  ⟨fun _ _ _ hab hbc => le_trans hbc hab⟩

/-- The sorted candidate list (`backup_service.py` 301). -/
def sort_newest_first (l : List FsEntry) : List FsEntry :=
  l.insertionSort newerRel

/-- The entries the sweep attempts to delete (`backup_service.py` 304:
`backups[retention_count:]` of the newest-first list). -/
def cleanup_targets (backup_format : String) (entries : List FsEntry)
    (retention_count : Nat) : List FsEntry :=
  (sort_newest_first (retention_candidates backup_format entries)).drop
    retention_count

/-- The entries the sweep leaves untouched: the `retention_count` newest. -/
def cleanup_kept (backup_format : String) (entries : List FsEntry)
    (retention_count : Nat) : List FsEntry :=
  (sort_newest_first (retention_candidates backup_format entries)).take
    retention_count

/-- The entries actually removed (`backup_service.py` 304-312): each
deletion is attempted inside its own try/except, so an entry is removed
exactly when it is a target and its own deletion does not fail,
independently of failures on other entries. -/
def cleanup_removed (backup_format : String) (entries : List FsEntry)
    (retention_count : Nat) (deleteFails : FsEntry → Bool) : List FsEntry :=
  (cleanup_targets backup_format entries retention_count).filter
    (fun e => !deleteFails e)

/-- Concrete backup directory with five zip archives of pairwise distinct
modification times, matching the retention example of the specification
(retention count 3, five archives). -/
def exampleArchives : List FsEntry :=
  [⟨"a.zip".toList, 10, false⟩, ⟨"b.zip".toList, 50, false⟩,
   ⟨"c.zip".toList, 30, false⟩, ⟨"d.zip".toList, 20, false⟩,
   ⟨"e.zip".toList, 40, false⟩]

/-- Helper: a list starts with itself followed by anything. -/
theorem startsWithCL_append (p x : List Char) : startsWithCL p (p ++ x) = true := by
  induction p with
  | nil => rfl
  | cons c cs ih => simp [startsWithCL, ih]

/-- Helper: replacing a non-empty pattern that the scanned list starts
with yields a list starting with the replacement. -/
theorem pyReplace_startsWith {pat repl s : List Char}
    (hp : pat ≠ []) (hs : startsWithCL pat s = true) :
    startsWithCL repl (pyReplace pat repl s) = true := by
  cases s with
  | nil =>
    cases pat with
    | nil => exact absurd rfl hp
    | cons c cs => simp [startsWithCL] at hs
  | cons c rest =>
    have hne : pat.isEmpty = false := by
      cases pat with
      | nil => exact absurd rfl hp
      | cons a as => rfl
    simp only [pyReplace, List.length_cons, pyReplaceAux, hne, hs,
      Bool.not_false, Bool.true_and, if_pos]
    exact startsWithCL_append repl _

/-- Helper: a list with a non-empty strip is non-empty. -/
theorem pyStrip_ne_nil_imp {t : List Char} (h : pyStrip t ≠ []) : t ≠ [] := by
  intro he
  subst he
  exact h rfl

/-- Helper: the startup reaper either fails a running record or leaves
the record untouched. -/
theorem startup_reap_job_cases (now : Nat) (j : BackupJob) :
    (j.status = Status.running ∧ (startup_reap_job now j).status = Status.failed)
    ∨ startup_reap_job now j = j := by
  unfold startup_reap_job
  split
  next h => exact Or.inl ⟨h, rfl⟩
  next => exact Or.inr rfl

/-- Helper: the dispatch reaper either fails a running record or leaves
the record untouched. -/
theorem dispatch_reap_job_cases (now rid : Nat) (j : BackupJob) :
    (j.status = Status.running ∧ (dispatch_reap_job now rid j).status = Status.failed)
    ∨ dispatch_reap_job now rid j = j := by
  unfold dispatch_reap_job
  split
  next h =>
    refine Or.inl ⟨?_, rfl⟩
    simp [is_stuck] at h
    exact h.1.2
  next => exact Or.inr rfl

/-- Helper: the duplicate cleanup either fails a pending or running
record or leaves the record untouched. -/
theorem duplicate_cleanup_job_cases (now : Nat) (d : Bool) (j : BackupJob) :
    ((j.status = Status.pending ∨ j.status = Status.running) ∧
      (duplicate_cleanup_job now d j).status = Status.failed)
    ∨ duplicate_cleanup_job now d j = j := by
  unfold duplicate_cleanup_job
  split
  next h =>
    refine Or.inl ⟨?_, rfl⟩
    simp at h
    exact h.2
  next => exact Or.inr rfl

/-- Helper: a pipeline invocation always ends its record in a terminal
status. -/
theorem backup_repository_terminal (rid : Nat) (f n : String)
    (c : Except String Unit) (s e : Nat) :
    (backup_repository rid f n c s e).job.status = Status.failed ∨
    (backup_repository rid f n c s e).job.status = Status.completed := by
  unfold backup_repository
  cases c with
  | error msg => left; rfl
  | ok _ =>
    cases hcb : create_backup n f with
    | error msg => simp [hcb]
    | ok p => simp [hcb]

/-- Helper: in a duplicate-free list no element lies both in the first
`k` positions and beyond them. -/
theorem mem_take_drop_absurd {l : List FsEntry} (h : l.Nodup) (k : Nat)
    {x : FsEntry} (ht : x ∈ l.take k) (hd : x ∈ l.drop k) : False := by
  have hc : l.count x ≤ 1 := List.nodup_iff_count_le_one.mp h x
  have h1 : 0 < (l.take k).count x := List.count_pos_iff.mpr ht
  have h2 : 0 < (l.drop k).count x := List.count_pos_iff.mpr hd
  have h3 : (l.take k ++ l.drop k).count x = l.count x := by
    rw [List.take_append_drop]
  rw [List.count_append] at h3
  omega

/-- Claim C1 counterexample: the claim says every invocation, manual ones
included, passes through the Concurrency Guard before the clone step.  At
this concrete state — a running job for repository 1 already in the
ledger and the per-repository lock unavailable — a scheduled invocation
is rejected by the guard, yet the manual route still invokes
`backup_repository`, so the manual path does not pass through the
guard. -/
theorem manual_backup_bypasses_guard_cex :
    manual_backup true = true ∧
    (backup_with_context true
      [{ repository_id := 1, status := Status.running, created_at := 50,
         started_at := some 50, completed_at := none, error_message := none,
         backup_path := none }] 1 51 false).ran = false := by decide

/-- Claim C1 (amended): a scheduled invocation reaches
`backup_repository` only when the per-repository exclusive lock is free
and, after the reaper pass, no ledger record of the repository is
`running`; a manual invocation, by contrast, always invokes
`backup_repository` directly, consulting none of these guards. -/
theorem guard_scheduled_only (jobs : List BackupJob) (rid now : Nat)
    (lockFree : Bool) :
    ((backup_with_context true jobs rid now lockFree).ran = true →
      lockFree = true ∧ hasRunning (dispatch_reap now rid jobs) rid = false) ∧
    manual_backup true = true := by
  constructor
  · intro h
    unfold backup_with_context at h
    simp only [Bool.not_true, Bool.false_eq_true, if_false] at h
    by_cases h1 : hasRunning (dispatch_reap now rid jobs) rid = true
    · simp [h1] at h
    · by_cases h2 : (dispatch_reap now rid jobs).any (is_recent_start now rid) = true
      · simp [h1, h2] at h
      · by_cases h3 : lockFree = true
        · exact ⟨h3, by simpa using h1⟩
        · simp [h1, h2, h3] at h
  · rfl

/-- Claim C1 witness: on an empty ledger with the lock free, the
scheduled path does run, and the guard conditions indeed hold there. -/
theorem guard_scheduled_only_witness :
    (backup_with_context true ([] : List BackupJob) 1 100 true).ran = true ∧
    (true = true ∧ hasRunning (dispatch_reap 100 1 ([] : List BackupJob)) 1 = false) :=
  ⟨by decide, (guard_scheduled_only [] 1 100 true).1 (by decide)⟩

/-- Claim C2 counterexample: the claim says that when a ledger record of
the repository is already `running` the scheduled invocation aborts and
modifies neither the ledger nor the filesystem.  At this concrete state
— one running record started more than 2 hours ago — the code instead
reaps that record (a committed ledger change) and then proceeds to run
the pipeline. -/
theorem scheduled_admission_cex :
    hasRunning
      [{ repository_id := 1, status := Status.running, created_at := 10,
         started_at := some 10, completed_at := none, error_message := none,
         backup_path := none }] 1 = true ∧
    (backup_with_context true
      [{ repository_id := 1, status := Status.running, created_at := 10,
         started_at := some 10, completed_at := none, error_message := none,
         backup_path := none }] 1 200 true).ran = true ∧
    (backup_with_context true
      [{ repository_id := 1, status := Status.running, created_at := 10,
         started_at := some 10, completed_at := none, error_message := none,
         backup_path := none }] 1 200 true).ledger ≠
      [{ repository_id := 1, status := Status.running, created_at := 10,
         started_at := some 10, completed_at := none, error_message := none,
         backup_path := none }] := by decide

/-- Claim C2 (amended): a scheduled invocation first runs the
per-repository stuck-job reaper, whose updates are the only ledger
modifications of the admission phase; it then rejects exactly when,
after the reap, a record of the repository is `running`, or a record of
the repository has `started_at` within the last 2 minutes, or the
non-blocking exclusive lock cannot be acquired; the admission phase
creates no ledger record, and records the reaper does not classify as
stuck are left untouched. -/
theorem scheduled_admission (jobs : List BackupJob) (rid now : Nat)
    (lockFree : Bool) :
    ((backup_with_context true jobs rid now lockFree).ran = false ↔
      (hasRunning (dispatch_reap now rid jobs) rid = true ∨
       (dispatch_reap now rid jobs).any (is_recent_start now rid) = true ∨
       lockFree = false)) ∧
    (backup_with_context true jobs rid now lockFree).ledger
      = dispatch_reap now rid jobs ∧
    (backup_with_context true jobs rid now lockFree).ledger.length = jobs.length ∧
    (∀ j ∈ jobs, is_stuck now rid j = false → dispatch_reap_job now rid j = j) := by
  refine ⟨?_, ?_, ?_, ?_⟩
  · unfold backup_with_context
    simp only [Bool.not_true, Bool.false_eq_true, if_false]
    split_ifs with h1 h2 h3 <;> simp_all
  · unfold backup_with_context
    simp only [Bool.not_true, Bool.false_eq_true, if_false]
    split_ifs <;> rfl
  · unfold backup_with_context
    simp only [Bool.not_true, Bool.false_eq_true, if_false]
    split_ifs <;> simp [dispatch_reap]
  · intro j _ hns
    simp [dispatch_reap_job, hns]

/-- Claim C2 witness: a record the reaper does not classify as stuck is
untouched by the admission phase. -/
theorem scheduled_admission_witness :
    dispatch_reap_job 51 1
      { repository_id := 1, status := Status.running, created_at := 50,
        started_at := some 50, completed_at := none, error_message := none,
        backup_path := none } =
      { repository_id := 1, status := Status.running, created_at := 50,
        started_at := some 50, completed_at := none, error_message := none,
        backup_path := none } :=
  (scheduled_admission
    [{ repository_id := 1, status := Status.running, created_at := 50,
       started_at := some 50, completed_at := none, error_message := none,
       backup_path := none }] 1 51 false).2.2.2 _ (by decide) (by decide)

/-- Claim C3: after one pass of the stuck-job reaper, every record in the
reaper's scope that is `running` with `started_at` older than 2 hours is
`failed` with a completion time and a distinguishing error detail — the
per-dispatch pass covers the dispatched repository's records, the
startup pass covers all `running` records — and neither pass modifies a
record already in a terminal state. -/
theorem stuck_job_reaper_correct (now rid : Nat) (j : BackupJob) :
    (j.repository_id = rid → j.status = Status.running →
      ∀ t, j.started_at = some t → t + 120 < now →
        (dispatch_reap_job now rid j).status = Status.failed ∧
        (dispatch_reap_job now rid j).completed_at = some now ∧
        (dispatch_reap_job now rid j).error_message
          = some "Job stuck for over 2 hours, automatically failed") ∧
    (isTerminalStatus j.status → dispatch_reap_job now rid j = j) ∧
    (j.status = Status.running →
        (startup_reap_job now j).status = Status.failed ∧
        (startup_reap_job now j).completed_at = some now ∧
        (startup_reap_job now j).error_message
          = some "Job was running when application restarted") ∧
    (isTerminalStatus j.status → startup_reap_job now j = j) := by
  refine ⟨?_, ?_, ?_, ?_⟩
  · intro h1 h2 t h3 h4
    simp [dispatch_reap_job, is_stuck, h1, h2, h3, h4]
  · intro ht
    rcases ht with h | h <;> simp [dispatch_reap_job, is_stuck, h]
  · intro h
    simp [startup_reap_job, h]
  · intro ht
    rcases ht with h | h <;> simp [startup_reap_job, h]

/-- Claim C3 witness: a record running for over 2 hours is failed by a
dispatch-reaper pass, and a completed record is untouched. -/
theorem stuck_job_reaper_correct_witness :
    ((dispatch_reap_job 200 1
      { repository_id := 1, status := Status.running, created_at := 10,
        started_at := some 10, completed_at := none, error_message := none,
        backup_path := none }).status = Status.failed ∧
     (dispatch_reap_job 200 1
      { repository_id := 1, status := Status.running, created_at := 10,
        started_at := some 10, completed_at := none, error_message := none,
        backup_path := none }).completed_at = some 200 ∧
     (dispatch_reap_job 200 1
      { repository_id := 1, status := Status.running, created_at := 10,
        started_at := some 10, completed_at := none, error_message := none,
        backup_path := none }).error_message
        = some "Job stuck for over 2 hours, automatically failed") ∧
    dispatch_reap_job 200 1
      { repository_id := 1, status := Status.completed, created_at := 10,
        started_at := some 10, completed_at := some 20, error_message := none,
        backup_path := none } =
      { repository_id := 1, status := Status.completed, created_at := 10,
        started_at := some 10, completed_at := some 20, error_message := none,
        backup_path := none } :=
  ⟨(stuck_job_reaper_correct 200 1 _).1 rfl rfl 10 rfl (by decide),
   (stuck_job_reaper_correct 200 1 _).2.1 (Or.inl rfl)⟩

/-- Claim C4: over a backup directory whose candidate archives have
pairwise distinct modification times, one retention sweep with retention
count `k` targets exactly the entries beyond the `k` newest: every
targeted entry is strictly older than every kept entry, exactly
`min k |candidates|` entries are kept, kept and targeted entries
together are exactly the candidates, `temp_`-prefixed directories are
excluded from the folder-format candidate list, and a deletion failure
on one entry does not prevent deletion of the remaining entries. -/
theorem cleanup_old_backups_correct (backup_format : String)
    (entries : List FsEntry) (k : Nat)
    (hd : ((retention_candidates backup_format entries).map
            (fun e => e.mtime)).Nodup) :
    (∀ x ∈ cleanup_targets backup_format entries k,
      ∀ y ∈ cleanup_kept backup_format entries k, x.mtime < y.mtime) ∧
    (cleanup_kept backup_format entries k).length
      = min k (retention_candidates backup_format entries).length ∧
    List.Perm
      (cleanup_kept backup_format entries k
        ++ cleanup_targets backup_format entries k)
      (retention_candidates backup_format entries) ∧
    (∀ e ∈ retention_candidates "folder" entries,
      startsWithCL tempMarker e.name = false) ∧
    (∀ deleteFails : FsEntry → Bool,
      ∀ e ∈ cleanup_targets backup_format entries k, deleteFails e = false →
        e ∈ cleanup_removed backup_format entries k deleteFails) := by
  unfold cleanup_removed cleanup_targets cleanup_kept
  set C := retention_candidates backup_format entries with hCdef
  set S := sort_newest_first C with hSdef
  have hsorted : List.Sorted newerRel S := List.sorted_insertionSort newerRel C
  have hperm : List.Perm S C := List.perm_insertionSort newerRel C
  have hmapnd : (S.map (fun e => e.mtime)).Nodup :=
    ((hperm.map (fun e => e.mtime)).nodup_iff).mpr hd
  have hndS : S.Nodup := List.Nodup.of_map _ hmapnd
  refine ⟨?_, ?_, ?_, ?_, ?_⟩
  · intro x hx y hy
    have hle : x.mtime ≤ y.mtime := by
      have hp : (S.take k ++ S.drop k).Pairwise newerRel := by
        rw [List.take_append_drop]
        exact hsorted
      exact (List.pairwise_append.mp hp).2.2 y hy x hx
    have hxS : x ∈ S := List.mem_of_mem_drop hx
    have hyS : y ∈ S := List.mem_of_mem_take hy
    rcases Nat.lt_or_ge x.mtime y.mtime with hlt | hge
    · exact hlt
    · exfalso
      have heq : x.mtime = y.mtime := le_antisymm hle hge
      have hxy : x = y := List.inj_on_of_nodup_map hmapnd hxS hyS heq
      subst hxy
      exact mem_take_drop_absurd hndS k hy hx
  · rw [List.length_take, hperm.length_eq]
  · rw [List.take_append_drop]
    exact hperm
  · intro e he
    have hcand : retention_candidates "folder" entries
        = entries.filter
            (fun a => a.isDir && !startsWithCL tempMarker a.name) := by
      simp [retention_candidates]
    rw [hcand] at he
    have hpred := List.of_mem_filter he
    simp only [Bool.and_eq_true, Bool.not_eq_true'] at hpred
    exact hpred.2
  · intro f e he hf
    exact List.mem_filter.mpr ⟨he, by simp [hf]⟩

/-- Claim C4 witness: the specification's concrete retention example —
five zip archives with distinct modification times and retention count
3 — satisfies the sweep properties. -/
theorem cleanup_old_backups_correct_witness :
    ((retention_candidates "zip" exampleArchives).map
        (fun e => e.mtime)).Nodup ∧
    ((∀ x ∈ cleanup_targets "zip" exampleArchives 3,
        ∀ y ∈ cleanup_kept "zip" exampleArchives 3, x.mtime < y.mtime) ∧
     (cleanup_kept "zip" exampleArchives 3).length
        = min 3 (retention_candidates "zip" exampleArchives).length ∧
     List.Perm
       (cleanup_kept "zip" exampleArchives 3
         ++ cleanup_targets "zip" exampleArchives 3)
       (retention_candidates "zip" exampleArchives) ∧
     (∀ e ∈ retention_candidates "folder" exampleArchives,
        startsWithCL tempMarker e.name = false) ∧
     (∀ deleteFails : FsEntry → Bool,
        ∀ e ∈ cleanup_targets "zip" exampleArchives 3, deleteFails e = false →
          e ∈ cleanup_removed "zip" exampleArchives 3 deleteFails)) :=
  ⟨by decide, cleanup_old_backups_correct "zip" exampleArchives 3 (by decide)⟩

/-- Claim C5: custom-schedule validation accepts a days interval exactly
in 1..365 (so 0 and 366 are rejected while 365 is accepted), a weeks
interval exactly in 1..52, a months interval exactly in 1..12, an hour
exactly in 0..23 and a minute exactly in 0..59. -/
theorem custom_schedule_validation (i hr mi : Int) :
    (valid_custom_interval "days" i = true ↔ 1 ≤ i ∧ i ≤ 365) ∧
    (valid_custom_interval "weeks" i = true ↔ 1 ≤ i ∧ i ≤ 52) ∧
    (valid_custom_interval "months" i = true ↔ 1 ≤ i ∧ i ≤ 12) ∧
    (valid_custom_time hr mi = true ↔ 0 ≤ hr ∧ hr ≤ 23 ∧ 0 ≤ mi ∧ mi ≤ 59) ∧
    valid_custom_schedule "days" 0 2 0 = false ∧
    valid_custom_schedule "days" 366 2 0 = false ∧
    valid_custom_schedule "days" 365 2 0 = true := by
  refine ⟨?_, ?_, ?_, ?_, by decide, by decide, by decide⟩ <;>
    simp [valid_custom_interval, valid_custom_time] <;> omega

/-- Helper: chronological totality of calendar instants — when `a` is
not at or before `b`, `b` is strictly before `a`. -/
theorem dtLT_of_not_dtLE {a b : LocalDT} (h : ¬ dtLE a b) : dtLT b a := by
  rcases a with ⟨y1, m1, d1, h1, n1⟩
  rcases b with ⟨y2, m2, d2, h2, n2⟩
  unfold dtLE dtLT at *
  simp only [LocalDT.mk.injEq] at h ⊢
  omega

/-- Claim C6 counterexample: the claim fails in every unit branch.
Days: at 02:00 with configured time 02:00 and interval 3, the anchor
equals the current instant and the armed start advances one day, not
the claimed full period of 3 days.  Weeks: on a Monday at 01:00 with
configured time 02:00, the next occurrence of the wall-clock time is
today at minute 120, yet the armed start lies 6 days later (the coming
Sunday); and on a Sunday exactly at the configured time with interval
3, the start advances one week, not 3 weeks.  Months: on the 1st at
exactly the configured time with interval 3, the anchor advances one
month, not 3 months. -/
theorem custom_anchor_cex :
    (120 - 120 % 1440) + 2 * 60 + 0 = 120 ∧
    custom_days_first_fire 120 2 0 3 = 120 + 1440 ∧
    custom_days_first_fire 120 2 0 3 ≠ 120 + 3 * 1440 ∧
    weekdayOf 60 = 0 ∧
    60 < (60 - 60 % 1440) + 2 * 60 + 0 ∧
    custom_weeks_first_fire 60 2 0 3 = 120 + 6 * 1440 ∧
    custom_weeks_first_fire 60 2 0 3 ≠ 120 ∧
    weekdayOf 8760 = 6 ∧
    (8760 - 8760 % 1440) + 2 * 60 + 0 = 8760 ∧
    custom_weeks_first_fire 8760 2 0 3 = 8760 + 7 * 1440 ∧
    custom_weeks_first_fire 8760 2 0 3 ≠ 8760 + 3 * (7 * 1440) ∧
    custom_months_first_anchor ⟨2025, 6, 1, 2, 0⟩ 2 0 3 = ⟨2025, 7, 1, 2, 0⟩ ∧
    custom_months_first_anchor ⟨2025, 6, 1, 2, 0⟩ 2 0 3 ≠ ⟨2025, 9, 1, 2, 0⟩ := by
  decide

/-- Claim C6 (amended): for a Custom schedule with interval greater
than 1 the anchor is unit-dependent.  Days: today's occurrence of the
configured hour/minute, advanced by one day — not one full period —
when it is not strictly in the future, the case of an anchor exactly
equal to the current instant included.  Weeks: that wall-clock time on
the coming Sunday (`(6 - weekday) % 7` days ahead), advanced by a full
week when today is Sunday and the time is not strictly in the future;
the anchor always falls on a Sunday.  Months: the configured time on
the 1st of the current month, advanced to the 1st of the next month
(December rolling over to January of the next year) when not strictly
in the future.  In every unit the armed start is strictly in the
future, so no zero-delay fire occurs. -/
theorem custom_anchor_all_units (now hour minute interval : Nat)
    (dt : LocalDT) (hi : 1 < interval) :
    (now < (now - now % 1440) + hour * 60 + minute →
      custom_days_first_fire now hour minute interval
        = (now - now % 1440) + hour * 60 + minute) ∧
    ((now - now % 1440) + hour * 60 + minute ≤ now →
      custom_days_first_fire now hour minute interval
        = (now - now % 1440) + hour * 60 + minute + 1440) ∧
    now < custom_days_first_fire now hour minute interval ∧
    (weekdayOf now = 6 → now < (now - now % 1440) + hour * 60 + minute →
      custom_weeks_first_fire now hour minute interval
        = (now - now % 1440) + hour * 60 + minute) ∧
    (weekdayOf now = 6 → (now - now % 1440) + hour * 60 + minute ≤ now →
      custom_weeks_first_fire now hour minute interval
        = (now - now % 1440) + hour * 60 + minute + 7 * 1440) ∧
    (weekdayOf now ≠ 6 →
      custom_weeks_first_fire now hour minute interval
        = (now - now % 1440) + hour * 60 + minute
            + ((6 - weekdayOf now) % 7) * 1440) ∧
    (hour ≤ 23 → minute ≤ 59 →
      weekdayOf (custom_weeks_first_fire now hour minute interval) = 6) ∧
    now < custom_weeks_first_fire now hour minute interval ∧
    (dtLE ⟨dt.year, dt.month, 1, hour, minute⟩ dt → dt.month = 12 →
      custom_months_first_anchor dt hour minute interval
        = ⟨dt.year + 1, 1, 1, hour, minute⟩) ∧
    (dtLE ⟨dt.year, dt.month, 1, hour, minute⟩ dt → dt.month ≠ 12 →
      custom_months_first_anchor dt hour minute interval
        = ⟨dt.year, dt.month + 1, 1, hour, minute⟩) ∧
    (¬ dtLE ⟨dt.year, dt.month, 1, hour, minute⟩ dt →
      custom_months_first_anchor dt hour minute interval
        = ⟨dt.year, dt.month, 1, hour, minute⟩) ∧
    (custom_months_first_anchor dt hour minute interval).day = 1 ∧
    dtLT dt (custom_months_first_anchor dt hour minute interval) := by
  have hmod : now % 1440 < 1440 := Nat.mod_lt now (by norm_num)
  have hmle : now % 1440 ≤ now := Nat.mod_le now 1440
  have hw7 : weekdayOf now < 7 := Nat.mod_lt _ (by norm_num)
  refine ⟨?_, ?_, ?_, ?_, ?_, ?_, ?_, ?_, ?_, ?_, ?_, ?_, ?_⟩
  · intro h
    unfold custom_days_first_fire compute_days_start
    dsimp only
    rw [if_neg (by omega)]
  · intro h
    unfold custom_days_first_fire compute_days_start
    dsimp only
    rw [if_pos h]
  · unfold custom_days_first_fire compute_days_start
    dsimp only
    by_cases hc : (now - now % 1440) + hour * 60 + minute ≤ now
    · rw [if_pos hc]
      omega
    · rw [if_neg hc]
      omega
  · intro h6 hlt
    unfold custom_weeks_first_fire compute_weeks_start
    dsimp only
    rw [h6]
    rw [if_neg (by omega)]
    omega
  · intro h6 hle
    unfold custom_weeks_first_fire compute_weeks_start
    dsimp only
    rw [h6]
    rw [if_pos (by omega)]
  · intro hne
    have hlt6 : weekdayOf now < 6 := by omega
    unfold custom_weeks_first_fire compute_weeks_start
    dsimp only
    rw [if_neg (by omega)]
  · intro hh hm
    unfold custom_weeks_first_fire compute_weeks_start weekdayOf
    dsimp only
    split
    next hc => omega
    next hc => omega
  · unfold custom_weeks_first_fire compute_weeks_start
    dsimp only
    split
    next hc => omega
    next hc =>
      unfold weekdayOf at hc ⊢
      omega
  · intro hle h12
    unfold custom_months_first_anchor compute_months_start
    dsimp only
    rw [if_pos hle, if_pos h12]
  · intro hle h12
    unfold custom_months_first_anchor compute_months_start
    dsimp only
    rw [if_pos hle, if_neg h12]
  · intro hnl
    unfold custom_months_first_anchor compute_months_start
    dsimp only
    rw [if_neg hnl]
  · unfold custom_months_first_anchor compute_months_start
    dsimp only
    split
    · split <;> rfl
    · rfl
  · unfold custom_months_first_anchor compute_months_start
    dsimp only
    split
    next hle =>
      split
      next h12 =>
        unfold dtLT
        dsimp only
        left
        omega
      next h12 =>
        unfold dtLT
        dsimp only
        refine Or.inr ⟨rfl, Or.inl ?_⟩
        omega
    next hnl => exact dtLT_of_not_dtLE hnl

/-- Claim C6 witness: interval 3 with the configured time 03:00 at
02:00 anchors today 03:00 (days); a Monday 01:00 with configured time
02:00 anchors the coming Sunday, strictly in the future (weeks); the
10th of June at noon with configured time 02:00 anchors the 1st of
July, strictly after now (months). -/
theorem custom_anchor_all_units_witness :
    1 < 3 ∧
    custom_days_first_fire 120 3 0 3 = (120 - 120 % 1440) + 3 * 60 + 0 ∧
    custom_weeks_first_fire 60 2 0 3
      = (60 - 60 % 1440) + 2 * 60 + 0 + ((6 - weekdayOf 60) % 7) * 1440 ∧
    weekdayOf (custom_weeks_first_fire 60 2 0 3) = 6 ∧
    60 < custom_weeks_first_fire 60 2 0 3 ∧
    custom_months_first_anchor ⟨2025, 6, 10, 12, 0⟩ 2 0 3 = ⟨2025, 7, 1, 2, 0⟩ ∧
    dtLT ⟨2025, 6, 10, 12, 0⟩
      (custom_months_first_anchor ⟨2025, 6, 10, 12, 0⟩ 2 0 3) :=
  ⟨by decide,
   (custom_anchor_all_units 120 3 0 3 ⟨2025, 6, 10, 12, 0⟩ (by decide)).1
     (by decide),
   (custom_anchor_all_units 60 2 0 3 ⟨2025, 6, 10, 12, 0⟩
     (by decide)).2.2.2.2.2.1 (by decide),
   (custom_anchor_all_units 60 2 0 3 ⟨2025, 6, 10, 12, 0⟩
     (by decide)).2.2.2.2.2.2.1 (by decide) (by decide),
   (custom_anchor_all_units 60 2 0 3 ⟨2025, 6, 10, 12, 0⟩
     (by decide)).2.2.2.2.2.2.2.1,
   (custom_anchor_all_units 60 2 0 3 ⟨2025, 6, 10, 12, 0⟩
     (by decide)).2.2.2.2.2.2.2.2.2.1 (by decide) (by decide),
   (custom_anchor_all_units 60 2 0 3 ⟨2025, 6, 10, 12, 0⟩
     (by decide)).2.2.2.2.2.2.2.2.2.2.2.2⟩

/-- Claim C7: for a backup format other than `folder`, `zip` and
`tar.gz`, the pipeline produces no archive, the packaging step reports
the unsupported-format error which the pipeline boundary records as the
final failure: the ledger record ends `failed` with the failure message
and a completion time, and packaging is attempted exactly once. -/
theorem unsupported_format_reported (rid : Nat)
    (backup_format backup_name : String) (startTime endTime : Nat)
    (hf : backup_format ≠ "folder") (hz : backup_format ≠ "zip")
    (ht : backup_format ≠ "tar.gz") :
    (backup_repository rid backup_format backup_name (Except.ok ())
        startTime endTime).job.status = Status.failed ∧
    (backup_repository rid backup_format backup_name (Except.ok ())
        startTime endTime).job.error_message
      = some ("Unsupported backup format: " ++ backup_format) ∧
    (backup_repository rid backup_format backup_name (Except.ok ())
        startTime endTime).job.completed_at = some endTime ∧
    (backup_repository rid backup_format backup_name (Except.ok ())
        startTime endTime).archive = none ∧
    (backup_repository rid backup_format backup_name (Except.ok ())
        startTime endTime).attempts = [backup_format] ∧
    create_backup backup_name backup_format
      = Except.error ("Unsupported backup format: " ++ backup_format) := by
  simp [backup_repository, create_backup, hf, hz, ht]

/-- Claim C7 witness: format `rar` is reported, not retried. -/
theorem unsupported_format_reported_witness :
    ("rar" : String) ≠ "folder" ∧
    ((backup_repository 1 "rar" "repo_20250101" (Except.ok ()) 100 105).job.status
        = Status.failed ∧
     (backup_repository 1 "rar" "repo_20250101" (Except.ok ()) 100 105).job.error_message
        = some ("Unsupported backup format: " ++ "rar") ∧
     (backup_repository 1 "rar" "repo_20250101" (Except.ok ()) 100 105).job.completed_at
        = some 105 ∧
     (backup_repository 1 "rar" "repo_20250101" (Except.ok ()) 100 105).archive = none ∧
     (backup_repository 1 "rar" "repo_20250101" (Except.ok ()) 100 105).attempts = ["rar"] ∧
     create_backup "repo_20250101" "rar"
        = Except.error ("Unsupported backup format: " ++ "rar")) :=
  ⟨by decide,
   unsupported_format_reported 1 "rar" "repo_20250101" 100 105
     (by decide) (by decide) (by decide)⟩

/-- Claim C8: the clone URL embeds the stored credential exactly when the
token is present with a non-blank strip and the stored URL starts with
the supported `https://github.com/` scheme — in that case the result is
the URL with the scheme replaced by `https://<token>@github.com/`, so it
starts with the credential-bearing scheme — and in every other case
(absent token, blank token, or any other URL) the clone URL is the
stored URL unchanged. -/
theorem clone_url_token_embedding (url : List Char) (tok : List Char) :
    clone_repository_url url none = url ∧
    (pyStrip tok = [] → clone_repository_url url (some tok) = url) ∧
    (startsWithCL githubSchemePfx url = false →
      clone_repository_url url (some tok) = url) ∧
    (pyStrip tok ≠ [] → startsWithCL githubSchemePfx url = true →
      startsWithCL (tokenSchemePfx tok) (clone_repository_url url (some tok))
          = true ∧
      clone_repository_url url (some tok)
          = pyReplace githubSchemePfx (tokenSchemePfx tok) url) := by
  refine ⟨rfl, ?_, ?_, ?_⟩
  · intro h
    simp only [clone_repository_url]
    rw [if_neg]
    rintro ⟨-, h2⟩
    exact h2 h
  · intro h
    simp only [clone_repository_url]
    split
    · rw [if_neg]
      simp [h]
    · rfl
  · intro h1 h2
    have hne : tok ≠ [] := pyStrip_ne_nil_imp h1
    simp only [clone_repository_url]
    rw [if_pos ⟨hne, h1⟩, if_pos h2]
    exact ⟨pyReplace_startsWith (by decide) h2, rfl⟩

/-- Claim C8 witness: a GitHub URL with a non-blank token gets the
credential embedded. -/
theorem clone_url_token_embedding_witness :
    pyStrip "tok".toList ≠ [] ∧
    startsWithCL githubSchemePfx "https://github.com/u/r".toList = true ∧
    (startsWithCL (tokenSchemePfx "tok".toList)
        (clone_repository_url "https://github.com/u/r".toList
          (some "tok".toList)) = true ∧
     clone_repository_url "https://github.com/u/r".toList (some "tok".toList)
        = pyReplace githubSchemePfx (tokenSchemePfx "tok".toList)
            "https://github.com/u/r".toList) :=
  ⟨by decide, by decide,
   (clone_url_token_embedding "https://github.com/u/r".toList "tok".toList).2.2.2
     (by decide) (by decide)⟩

/-- Claim C9: every ledger-writing operation — the startup reaper, the
per-dispatch reaper, the startup duplicate cleanup and the pipeline
(which creates its record as `running` and finishes it in a terminal
state) — only moves a record's status forward along the order
pending, running, then the terminal pair completed/failed, and no
operation changes a record that is already in a terminal state. -/
theorem status_monotonic (now rid : Nat) (d : Bool) (j : BackupJob)
    (backup_format backup_name : String) (cloneResult : Except String Unit)
    (startTime endTime : Nat) :
    statusForward j.status (startup_reap_job now j).status ∧
    (isTerminalStatus j.status → startup_reap_job now j = j) ∧
    statusForward j.status (dispatch_reap_job now rid j).status ∧
    (isTerminalStatus j.status → dispatch_reap_job now rid j = j) ∧
    statusForward j.status (duplicate_cleanup_job now d j).status ∧
    (isTerminalStatus j.status → duplicate_cleanup_job now d j = j) ∧
    statusForward Status.running
      (backup_repository rid backup_format backup_name cloneResult
        startTime endTime).job.status ∧
    isTerminalStatus
      (backup_repository rid backup_format backup_name cloneResult
        startTime endTime).job.status := by
  refine ⟨?_, ?_, ?_, ?_, ?_, ?_, ?_, ?_⟩
  · rcases startup_reap_job_cases now j with ⟨hr, hf⟩ | he
    · rw [hr, hf]; decide
    · rw [he]; exact Or.inl rfl
  · intro ht
    rcases startup_reap_job_cases now j with ⟨hr, -⟩ | he
    · rw [hr] at ht; exact absurd ht (by decide)
    · exact he
  · rcases dispatch_reap_job_cases now rid j with ⟨hr, hf⟩ | he
    · rw [hr, hf]; decide
    · rw [he]; exact Or.inl rfl
  · intro ht
    rcases dispatch_reap_job_cases now rid j with ⟨hr, -⟩ | he
    · rw [hr] at ht; exact absurd ht (by decide)
    · exact he
  · rcases duplicate_cleanup_job_cases now d j with ⟨hr, hf⟩ | he
    · rcases hr with hr | hr <;> rw [hr, hf] <;> decide
    · rw [he]; exact Or.inl rfl
  · intro ht
    rcases duplicate_cleanup_job_cases now d j with ⟨hr, -⟩ | he
    · rcases hr with hr | hr <;> rw [hr] at ht <;> exact absurd ht (by decide)
    · exact he
  · rcases backup_repository_terminal rid backup_format backup_name cloneResult
      startTime endTime with h | h <;> rw [h] <;> decide
  · rcases backup_repository_terminal rid backup_format backup_name cloneResult
      startTime endTime with h | h <;> rw [h] <;> decide

/-- Claim C9 witness: a completed record is untouched by all three
ledger-sweeping operations. -/
theorem status_monotonic_witness :
    startup_reap_job 5
      { repository_id := 1, status := Status.completed, created_at := 1,
        started_at := some 1, completed_at := some 2, error_message := none,
        backup_path := none } =
      { repository_id := 1, status := Status.completed, created_at := 1,
        started_at := some 1, completed_at := some 2, error_message := none,
        backup_path := none } ∧
    dispatch_reap_job 5 1
      { repository_id := 1, status := Status.completed, created_at := 1,
        started_at := some 1, completed_at := some 2, error_message := none,
        backup_path := none } =
      { repository_id := 1, status := Status.completed, created_at := 1,
        started_at := some 1, completed_at := some 2, error_message := none,
        backup_path := none } ∧
    duplicate_cleanup_job 5 true
      { repository_id := 1, status := Status.completed, created_at := 1,
        started_at := some 1, completed_at := some 2, error_message := none,
        backup_path := none } =
      { repository_id := 1, status := Status.completed, created_at := 1,
        started_at := some 1, completed_at := some 2, error_message := none,
        backup_path := none } :=
  ⟨(status_monotonic 5 1 true _ "zip" "n" (Except.ok ()) 1 2).2.1 (Or.inl rfl),
   (status_monotonic 5 1 true _ "zip" "n" (Except.ok ()) 1 2).2.2.2.1 (Or.inl rfl),
   (status_monotonic 5 1 true _ "zip" "n" (Except.ok ()) 1 2).2.2.2.2.2.1 (Or.inl rfl)⟩

/-- Claim C10: the startup sweep marks every `running` record failed with
the restart error detail and a completion time, with no condition on how
recently it started. -/
theorem startup_reap_fails_all_running (now : Nat) (j : BackupJob)
    (h : j.status = Status.running) :
    (startup_reap_job now j).status = Status.failed ∧
    (startup_reap_job now j).error_message
      = some "Job was running when application restarted" ∧
    (startup_reap_job now j).completed_at = some now := by
  simp [startup_reap_job, h]

/-- Claim C10 witness: a record that started one minute before the
restart is failed all the same. -/
theorem startup_reap_fails_all_running_witness :
    ({ repository_id := 7, status := Status.running, created_at := 1000,
       started_at := some 999, completed_at := none, error_message := none,
       backup_path := none } : BackupJob).status = Status.running ∧
    ((startup_reap_job 1000
      { repository_id := 7, status := Status.running, created_at := 1000,
        started_at := some 999, completed_at := none, error_message := none,
        backup_path := none }).status = Status.failed ∧
     (startup_reap_job 1000
      { repository_id := 7, status := Status.running, created_at := 1000,
        started_at := some 999, completed_at := none, error_message := none,
        backup_path := none }).error_message
        = some "Job was running when application restarted" ∧
     (startup_reap_job 1000
      { repository_id := 7, status := Status.running, created_at := 1000,
        started_at := some 999, completed_at := none, error_message := none,
        backup_path := none }).completed_at = some 1000) :=
  ⟨by decide, startup_reap_fails_all_running 1000 _ (by decide)⟩

end GithubBackup
